import Mathlib

/-!
Shallow embedding of `final_AI_Task_Optimizer.py` (the mood-history
persistence, stress-monitoring, task-recommendation and aggregation core),
together with theorems settling the specification claims.

Modelling conventions:
* Python values flowing through the history log are modelled by `JValue`
  (strings, integers, arrays, dictionaries, `None`), since log entries and
  file contents are arbitrary JSON-ish data.
* `print` side effects are modelled by returning a `List Diag` of emitted
  diagnostics; a function that prints nothing returns `[]`.
* The backing file is modelled by `FileContent`: absent, zero-length,
  syntactically invalid JSON, or valid JSON parsing to a `JValue`.
  JSON (de)serialization of well-formed values is modelled as the identity
  at the `JValue` level.
* `random.choice(seq)` is modelled by an adversarially chosen natural
  number `r`, selecting element `r % seq.length`.
* `hashlib.sha256(...).hexdigest()` is a call into an external library
  (like DeepFace and TextBlob, which are out of scope); it is modelled as
  an arbitrary function parameter `sha256hex : String → String`.
* An attempted write under an environmental I/O failure is modelled by the
  flag `ioFail`; when set, `open(filename, "w")` raises and the file is
  left unchanged.
-/

/-- JSON-ish Python values: strings, integers, lists, dictionaries, None. -/
inductive JValue : Type
  | str (s : String)
  | num (n : Int)
  | arr (xs : List JValue)
  | obj (fields : List (String × JValue))
  | null
deriving Repr

/-- Diagnostics printed by the core functions. -/
inductive Diag : Type
  | alert      -- "⚠️ ALERT: Prolonged stress detected! Notifying HR."
  | saveOk     -- "✅ Mood history successfully updated with anonymized data!"
  | saveErr    -- "❌ Error saving mood history: {e}"
  | loadWarn   -- "⚠️ Warning: mood_history.json is corrupted or empty. Resetting..."
deriving Repr, DecidableEq

/-- Python dictionary field access as used under `"k" in entry` guards:
`some v` when `entry` is a dict containing key `k`, `none` otherwise. -/
def JValue.getField (entry : JValue) (k : String) : Option JValue :=
  match entry with
  | .obj fields => fields.lookup k
  | _ => none

/-- Does a Python value equal the Python string literal `s`?
(In Python, a non-string value never equals a string.) -/
def JValue.isStr (v : JValue) (s : String) : Bool :=
  match v with
  | .str t => t == s
  | _ => false

/-- Python slice `l[-n:]`: the last `min n l.length` elements of `l`. -/
def pySliceLast (n : Nat) (l : List JValue) : List JValue :=
  l.drop (l.length - n)

/-- Embedding of `monitor_stress(mood_history)` (source lines 50-61).
Takes the last 5 records, keeps `entry["mood"]` for the entries that are
dicts carrying a `"mood"` key, counts those equal to `"Sad"`, and prints
an HR alert when the count reaches the threshold 3.  The Python function
returns `None`; its observable behaviour is the printed output. -/
def monitor_stress (mood_history : List JValue) : List Diag :=
  let stress_threshold := 3
  let recent_moods :=
    (pySliceLast 5 mood_history).filterMap (fun entry => entry.getField "mood")
  let stressed_count := (recent_moods.filter (fun mood => mood.isStr "Sad")).length
  if stress_threshold ≤ stressed_count then [.alert] else []

/-- Backing-file states distinguished by `load_mood_history`:
missing file, zero-length file, content that raises `json.JSONDecodeError`,
and content that is valid JSON parsing to `v`. -/
inductive FileContent : Type
  | absent
  | empty
  | invalid
  | wellFormed (v : JValue)
deriving Repr

/-- Embedding of `load_mood_history(filename)` (source lines 107-120).
Returns the loaded value together with the printed diagnostics.  A missing
or zero-length file yields the empty list; a `json.JSONDecodeError` is
caught, a warning printed and the empty list returned; any other valid
JSON is returned exactly as parsed (the code performs no shape check). -/
def load_mood_history (f : FileContent) : JValue × List Diag :=
  match f with
  | .absent => (.arr [], [])
  | .empty => (.arr [], [])
  | .invalid => (.arr [], [.loadWarn])
  | .wellFormed v => (v, [])

/-- The privacy-safe projection built inside `save_mood_history`
(source lines 94-97):
`{"employee_id": entry["employee_id"], "anonymized_mood": entry["anonymized_mood"]}`.
`none` models the `KeyError`/`TypeError` raised when `entry` is not a dict
or lacks one of the two keys; the exception is caught by the surrounding
`except Exception`. -/
def project (entry : JValue) : Option JValue :=
  match entry.getField "employee_id", entry.getField "anonymized_mood" with
  | some e, some a => some (.obj [("employee_id", e), ("anonymized_mood", a)])
  | _, _ => none

/-- The list comprehension of source lines 94-97: project every entry,
aborting with the first raised exception (`none`). -/
def projectAll : List JValue → Option (List JValue)
  | [] => some []
  | e :: es =>
    match project e, projectAll es with
    | some p, some ps => some (p :: ps)
    | _, _ => none

/-- Embedding of `save_mood_history(mood_history, filename)` (source lines
88-104).  Builds the list of privacy-safe projections; if any entry raises,
the exception is caught, an error diagnostic printed and the file left
unchanged.  Otherwise the file is opened for writing — under an
environmental I/O failure (`ioFail`) this raises, is caught, and the file
is left unchanged — and the projected list is dumped as JSON, replacing
the prior content entirely.  Returns the resulting file state and the
printed diagnostics; the in-memory `mood_history` argument is only read. -/
def save_mood_history (ioFail : Bool) (mood_history : List JValue)
    (f : FileContent) : FileContent × List Diag :=
  match projectAll mood_history with
  | none => (f, [.saveErr])
  | some filtered_history =>
    if ioFail then (f, [.saveErr])
    else (.wellFormed (.arr filtered_history), [.saveOk])

/-- Python `str.capitalize()`: first character uppercased, the remaining
characters lowercased (ASCII behaviour, which covers every string the
program branches on). -/
def pyCapitalize (s : String) : String :=
  match s.data with
  | [] => ""
  | c :: cs => ⟨c.toUpper :: cs.map Char.toLower⟩

/-- The fixed task table of `recommend_task` (source lines 70-76).
Note the table has no `"Neutral"` entry. -/
def tasks : List (String × List String) :=
  [ ("Happy", ["Collaborate on a new project", "Share positivity with the team"]),
    ("Sad", ["Take a break", "Listen to music", "Talk to a friend"]),
    ("Fear", ["Practice deep breathing", "Engage in light work", "Seek support"]),
    ("Angry", ["Cool down with a short walk", "Work on solo tasks"]),
    ("Surprise", ["Reflect on new insights", "Plan next steps"]) ]

/-- Embedding of `recommend_task(mood)` (source lines 64-77).
Capitalizes the mood, looks it up in the fixed table with the one-element
default `["No suggestion available"]`, and models `random.choice` by the
adversarial index `r`, returning element `r % length` of the candidate
list. -/
def recommend_task (r : Nat) (mood : String) : String :=
  let cands := (tasks.lookup (pyCapitalize mood)).getD ["No suggestion available"]
  cands.getD (r % cands.length) "No suggestion available"

/-- Embedding of `anonymize_data(data)` (source lines 80-85):
`hashlib.sha256(data.encode()).hexdigest()`.  SHA-256 is an external
library call, modelled by the function parameter `sha256hex`. -/
def anonymize_data (sha256hex : String → String) (data : String) : String :=
  sha256hex data

/-- The mood record built in the main loop (source lines 181-185). -/
def mood_entry (sha256hex : String → String) (employee_id mood : String) : JValue :=
  .obj [ ("employee_id", .str employee_id),
         ("mood", .str mood),
         ("anonymized_mood", .str (anonymize_data sha256hex mood)) ]

/-- One iteration of the main loop body acting on the log and backing file
(source lines 180-189): build the record, append it to the in-memory log,
persist the log, run the stress monitor.  Returns the new state and the
diagnostics printed this iteration. -/
def mainStep (sha256hex : String → String) (employee_id : String)
    (ioFail : Bool) (mood : String) (st : List JValue × FileContent) :
    (List JValue × FileContent) × List Diag :=
  let mood_history := st.1 ++ [mood_entry sha256hex employee_id mood]
  let (f, d) := save_mood_history ioFail mood_history st.2
  ((mood_history, f), d ++ monitor_stress mood_history)

/-- The main loop over a finite stream of detected moods (source lines
173-198), starting from an initial in-memory log and file state. -/
def runMain (sha256hex : String → String) (employee_id : String)
    (moods : List String) (st : List JValue × FileContent) :
    List JValue × FileContent :=
  moods.foldl (fun st mood => (mainStep sha256hex employee_id false mood st).1) st

/-- The stream of raw mood labels that feeds `Counter` inside
`plot_team_mood` (source line 132): `entry["mood"]` for every entry that
is a dict carrying a `"mood"` key.  The aggregation mapping is empty
exactly when this list is empty. -/
def plotMoods (mood_history : List JValue) : List JValue :=
  mood_history.filterMap (fun entry => entry.getField "mood")

/-! ## Helper definitions and lemmas -/

/-- A record as the round-trip claim assumes them: a dictionary carrying
string fields `"employee_id"` and `"anonymized_mood"`. -/
def WellFormedRecord (entry : JValue) : Prop :=
  (∃ s, entry.getField "employee_id" = some (.str s)) ∧
  (∃ s, entry.getField "anonymized_mood" = some (.str s))

/-- The privacy-safe projection of a record, as the spec describes it:
the record restricted to its `employee_id` and `anonymized_mood` fields. -/
def privacyProjection (entry : JValue) : JValue :=
  .obj [ ("employee_id", (entry.getField "employee_id").getD .null),
         ("anonymized_mood", (entry.getField "anonymized_mood").getD .null) ]

/-- Two entries agreeing on the two persisted fields. -/
def ProjAgree (a b : JValue) : Prop :=
  a.getField "employee_id" = b.getField "employee_id" ∧
  a.getField "anonymized_mood" = b.getField "anonymized_mood"

lemma project_of_wellFormed {e : JValue} (h : WellFormedRecord e) :
    project e = some (privacyProjection e) := by
  obtain ⟨⟨s1, h1⟩, ⟨s2, h2⟩⟩ := h
  simp [project, privacyProjection, h1, h2]

lemma projectAll_eq_map {log : List JValue}
    (hwf : ∀ e ∈ log, WellFormedRecord e) :
    projectAll log = some (log.map privacyProjection) := by
  induction log with
  | nil => rfl
  | cons e es ih =>
    have he := project_of_wellFormed (hwf e (by simp))
    have hes := ih (fun x hx => hwf x (by simp [hx]))
    simp [projectAll, he, hes]

lemma project_shape {e p : JValue} (h : project e = some p) :
    ∃ v w, p = .obj [("employee_id", v), ("anonymized_mood", w)] := by
  unfold project at h
  rcases h1 : e.getField "employee_id" with _ | v <;>
    rcases h2 : e.getField "anonymized_mood" with _ | w <;>
      simp [h1, h2] at h
  exact ⟨v, w, h.symm⟩

lemma project_no_mood {e p : JValue} (h : project e = some p) :
    p.getField "mood" = none := by
  obtain ⟨v, w, rfl⟩ := project_shape h
  rfl

lemma projectAll_no_mood {log ps : List JValue} (h : projectAll log = some ps) :
    ∀ p ∈ ps, p.getField "mood" = none := by
  induction log generalizing ps with
  | nil =>
    simp [projectAll] at h
    subst h
    simp
  | cons e es ih =>
    unfold projectAll at h
    rcases hp : project e with _ | p <;> rcases hps : projectAll es with _ | ps' <;>
      simp [hp, hps] at h
    subst h
    intro q hq
    rcases List.mem_cons.mp hq with rfl | hq
    · exact project_no_mood hp
    · exact ih hps q hq

lemma projectAll_congr {l1 l2 : List JValue}
    (h : List.Forall₂ ProjAgree l1 l2) : projectAll l1 = projectAll l2 := by
  induction h with
  | nil => rfl
  | cons hab _ ih =>
    unfold projectAll project
    rw [hab.1, hab.2, ih]

lemma getD_mem {α : Type} {l : List α} :
    ∀ {n : Nat}, n < l.length → ∀ d : α, l.getD n d ∈ l := by
  induction l with
  | nil => intro n h d; simp at h
  | cons a l ih =>
    intro n h d
    cases n with
    | zero => simp
    | succ n =>
      simp only [List.getD_cons_succ]
      exact List.mem_cons_of_mem _ (ih (by simpa using h) d)

lemma tasks_lookup_ne_nil {s : String} {cands : List String}
    (h : tasks.lookup s = some cands) : cands ≠ [] := by
  simp only [tasks, List.lookup] at h
  repeat' split at h
  all_goals try (cases h)
  all_goals simp_all

lemma recommend_task_mem {r : Nat} {mood : String} {cands : List String}
    (h : tasks.lookup (pyCapitalize mood) = some cands) :
    recommend_task r mood ∈ cands := by
  have hne := tasks_lookup_ne_nil h
  have hlt : r % cands.length < cands.length :=
    Nat.mod_lt _ (List.length_pos.mpr hne)
  simp only [recommend_task, h, Option.getD_some]
  exact getD_mem hlt _

lemma filterMap_mood_nil {l : List JValue}
    (h : ∀ p ∈ l, p.getField "mood" = none) :
    l.filterMap (fun e => e.getField "mood") = [] := by
  induction l with
  | nil => rfl
  | cons a l ih =>
    simp [List.filterMap_cons, h a (by simp),
      ih (fun p hp => h p (by simp [hp]))]

lemma pySliceLast_subset (n : Nat) (l : List JValue) :
    pySliceLast n l ⊆ l :=
  List.drop_subset _ l

lemma pySliceLast_eq_reverse_take (n : Nat) (l : List JValue) :
    pySliceLast n l = (l.reverse.take n).reverse := by
  have h := List.rtake_eq_reverse_take_reverse (l := l) (n := n)
  simpa [List.rtake, pySliceLast] using h

lemma pySliceLast_append {pre l : List JValue} (h : 5 ≤ l.length) :
    pySliceLast 5 (pre ++ l) = pySliceLast 5 l := by
  unfold pySliceLast
  rw [List.length_append]
  have heq : pre.length + l.length - 5 = pre.length + (l.length - 5) := by omega
  rw [heq, List.drop_append]

lemma projectAll_shape {log ps : List JValue} (h : projectAll log = some ps) :
    ∀ p ∈ ps, ∃ v w, p = .obj [("employee_id", v), ("anonymized_mood", w)] := by
  induction log generalizing ps with
  | nil =>
    simp [projectAll] at h
    subst h
    simp
  | cons e es ih =>
    unfold projectAll at h
    rcases hp : project e with _ | p <;> rcases hps : projectAll es with _ | ps' <;>
      simp [hp, hps] at h
    subst h
    intro q hq
    rcases List.mem_cons.mp hq with rfl | hq
    · exact project_shape hp
    · exact ih hps q hq

lemma mainStep_log (sha256hex : String → String) (employee_id : String)
    (ioFail : Bool) (mood : String) (st : List JValue × FileContent) :
    ((mainStep sha256hex employee_id ioFail mood st).1).1 =
      st.1 ++ [mood_entry sha256hex employee_id mood] := by
  unfold mainStep
  rcases hs : save_mood_history ioFail
      (st.1 ++ [mood_entry sha256hex employee_id mood]) st.2 with ⟨f, d⟩
  simp [hs]

/-! ## Claim theorems -/

/-- Claim C1: the stress check raises an alert (prints the HR alert line)
if and only if, among the last 5 records of the full log, the records that
are well-formed dictionaries carrying a `"mood"` field contain at least 3
entries whose mood equals `"Sad"`; with fewer than 5 records it operates
on however many exist (the last-5 window below is exactly the trailing
segment of the log), and the empty log never raises an alert. -/
theorem stress_alert_iff_three_sad_in_last_five (mood_history : List JValue) :
    (monitor_stress mood_history ≠ [] ↔
      3 ≤ (((mood_history.reverse.take 5).reverse.filterMap
              (fun entry => entry.getField "mood")).filter
              (fun mood => mood.isStr "Sad")).length) ∧
    monitor_stress [] = [] := by
  constructor
  · rw [← pySliceLast_eq_reverse_take]
    simp only [monitor_stress]
    split <;> simp_all
  · rfl

/-- Claim C5 counterexample: on a log whose last records are three `"Sad"`
entries, `monitor_stress` itself emits the alert line, so the monitor does
perform output rather than returning an alert signal for the caller to
surface (in the source it prints and returns `None`). -/
theorem stress_monitor_prints_itself_cex :
    monitor_stress
        [.obj [("mood", .str "Sad")], .obj [("mood", .str "Sad")],
         .obj [("mood", .str "Sad")]] = [Diag.alert] ∧
    ([Diag.alert] : List Diag) ≠ [] := by
  exact ⟨rfl, by simp⟩

/-- Claim C5 as amended: the stress check is a pure function of the last-5
window of its input (prepending older records changes nothing), does not
modify the log, and surfaces the alert itself: its only output is either
nothing or exactly the alert line, and it returns no value to its caller. -/
theorem stress_monitor_window_local (pre l : List JValue) (h : 5 ≤ l.length) :
    monitor_stress (pre ++ l) = monitor_stress l ∧
    (monitor_stress l = [] ∨ monitor_stress l = [Diag.alert]) := by
  constructor
  · simp only [monitor_stress]
    rw [pySliceLast_append h]
  · by_cases hc : 3 ≤ (((pySliceLast 5 l).filterMap
        (fun entry => entry.getField "mood")).filter
        (fun mood => mood.isStr "Sad")).length
    · exact Or.inr (by simp [monitor_stress, hc])
    · exact Or.inl (by simp [monitor_stress, hc])

/-- Witness for the amended claim C5 at a concrete log. -/
theorem stress_monitor_window_local_witness :
    monitor_stress ([JValue.null] ++ [.null, .null, .null, .null, .null]) =
      monitor_stress [.null, .null, .null, .null, .null] :=
  (stress_monitor_window_local [JValue.null]
      [.null, .null, .null, .null, .null] (by decide)).1

/-- Claim C3 counterexample: a backing file holding the valid JSON `[1]`
is not an array of objects with the two string fields, yet
`load_mood_history` returns it as parsed — not the empty log — and prints
no diagnostic. -/
theorem load_no_shape_check_cex :
    (load_mood_history (.wellFormed (.arr [.num 1]))).1 = .arr [.num 1] ∧
    JValue.arr [.num 1] ≠ JValue.arr [] ∧
    (load_mood_history (.wellFormed (.arr [.num 1]))).2 = [] := by
  refine ⟨rfl, ?_, rfl⟩
  intro hc
  simp at hc

/-- Claim C3 as amended: `load_mood_history` never raises; a non-existent
path returns an empty log, a zero-length file returns an empty log,
syntactically invalid JSON returns an empty log with a non-fatal
diagnostic, and any syntactically valid JSON content is returned exactly
as parsed, without shape validation. -/
theorem load_never_raises :
    load_mood_history .absent = (.arr [], []) ∧
    load_mood_history .empty = (.arr [], []) ∧
    load_mood_history .invalid = (.arr [], [.loadWarn]) ∧
    ∀ v, load_mood_history (.wellFormed v) = (v, []) :=
  ⟨rfl, rfl, rfl, fun _ => rfl⟩

/-- Claim C4 counterexample: `"Neutral"` belongs to the fixed mood
vocabulary, yet the task table has no entry for it, so
`recommend_task("Neutral")` returns the fallback value rather than a
member of a Neutral candidate set. -/
theorem recommend_neutral_fallback_cex :
    recommend_task 0 "Neutral" = "No suggestion available" ∧
    tasks.lookup "Neutral" = none := by
  exact ⟨rfl, rfl⟩

/-- Claim C4 as amended: for every mood whose capitalized form has an
entry in the fixed task table (exactly Happy, Sad, Fear, Angry and
Surprise), `recommend_task` returns a member of that mood's non-empty
candidate set for every random draw; every other mood string — including
`"Neutral"`, although it is in the fixed vocabulary — maps to the single
fallback value. -/
theorem recommend_in_candidate_set (r : Nat) (mood : String) :
    (∀ cands, tasks.lookup (pyCapitalize mood) = some cands →
        cands ≠ [] ∧ recommend_task r mood ∈ cands) ∧
    (tasks.lookup (pyCapitalize mood) = none →
        recommend_task r mood = "No suggestion available") := by
  constructor
  · intro cands hl
    exact ⟨tasks_lookup_ne_nil hl, recommend_task_mem hl⟩
  · intro hl
    simp [recommend_task, hl, Nat.mod_one]

/-- Witness for the amended claim C4 at concrete inputs. -/
theorem recommend_in_candidate_set_witness :
    recommend_task 2 "Sad" ∈ ["Take a break", "Listen to music", "Talk to a friend"] ∧
    recommend_task 2 "unknown" = "No suggestion available" :=
  ⟨((recommend_in_candidate_set 2 "Sad").1 _ rfl).2,
   (recommend_in_candidate_set 2 "unknown").2 rfl⟩

/-- Claim C9: `recommend_task` capitalizes its argument before lookup, so
`"happy"` and `"Happy"` agree and draw from the fixed Happy candidate set,
while `"unknown-mood"` returns the fallback value exactly. -/
theorem recommend_case_normalization (r : Nat) :
    recommend_task r "happy" = recommend_task r "Happy" ∧
    recommend_task r "happy" ∈
      ["Collaborate on a new project", "Share positivity with the team"] ∧
    recommend_task r "Happy" ∈
      ["Collaborate on a new project", "Share positivity with the team"] ∧
    recommend_task r "unknown-mood" = "No suggestion available" := by
  refine ⟨rfl, ?_, ?_, ?_⟩
  · exact recommend_task_mem rfl
  · exact recommend_task_mem rfl
  · have hl : tasks.lookup (pyCapitalize "unknown-mood") = none := rfl
    simp [recommend_task, hl, Nat.mod_one]

/-- Claim C2: saving a log of well-formed records (dictionaries carrying
string fields `employee_id` and `anonymized_mood`) and loading the file
back yields exactly the list of privacy-safe projections of the original
records, in order. -/
theorem save_load_roundtrip (log : List JValue) (f : FileContent)
    (hwf : ∀ e ∈ log, WellFormedRecord e) :
    load_mood_history (save_mood_history false log f).1 =
      (.arr (log.map privacyProjection), []) := by
  have hp := projectAll_eq_map hwf
  simp [save_mood_history, hp, load_mood_history]

/-- Witness for claim C2 at a concrete one-record log. -/
theorem save_load_roundtrip_witness :
    load_mood_history (save_mood_history false
        [JValue.obj [("employee_id", .str "E1"), ("mood", .str "Sad"),
                     ("anonymized_mood", .str "abc")]] .absent).1 =
      (JValue.arr [JValue.obj [("employee_id", .str "E1"),
                               ("anonymized_mood", .str "abc")]], []) :=
  save_load_roundtrip
    [JValue.obj [("employee_id", .str "E1"), ("mood", .str "Sad"),
                 ("anonymized_mood", .str "abc")]] .absent
    (by
      intro e he
      rw [List.mem_singleton.mp he]
      exact ⟨⟨"E1", rfl⟩, ⟨"abc", rfl⟩⟩)

/-- Claim C6: every failure during `save_mood_history` — an I/O error at
the write, or a malformed entry raising inside the projection — is caught:
the call returns normally with exactly the error diagnostic and leaves the
backing file unchanged; the in-memory log is only read by `save`, and one
main-loop iteration still appends its record even when persistence fails. -/
theorem save_failure_is_nonfatal (ioFail : Bool) (log : List JValue)
    (f : FileContent) (sha256hex : String → String)
    (employee_id mood : String) (st : List JValue × FileContent) :
    (ioFail = true ∨ projectAll log = none →
        save_mood_history ioFail log f = (f, [Diag.saveErr])) ∧
    ((mainStep sha256hex employee_id true mood st).1).1 =
      st.1 ++ [mood_entry sha256hex employee_id mood] := by
  constructor
  · intro hfail
    rcases hp : projectAll log with _ | ps
    · simp [save_mood_history, hp]
    · rcases hfail with rfl | hnone
      · simp [save_mood_history, hp]
      · rw [hp] at hnone
        exact absurd hnone (by simp)
  · exact mainStep_log sha256hex employee_id true mood st

/-- Witness for claim C6 at concrete inputs: a write failure on a
well-formed log, and the log growth of the iteration under that failure. -/
theorem save_failure_is_nonfatal_witness :
    save_mood_history true [] .absent = (.absent, [Diag.saveErr]) ∧
    ((mainStep (fun s => s) "E1" true "Sad" ([], .absent)).1).1 =
      [mood_entry (fun s => s) "E1" "Sad"] :=
  ⟨(save_failure_is_nonfatal true [] .absent (fun s => s) "E1" "Sad"
      ([], .absent)).1 (Or.inl rfl),
   (save_failure_is_nonfatal true [] .absent (fun s => s) "E1" "Sad"
      ([], .absent)).2⟩

/-- Claim C7: the persisted file content depends only on the
`employee_id` and `anonymized_mood` fields of the records — two logs
agreeing on those two fields produce identical file content whatever their
`mood` or extra fields are — and every record that reaches the file
consists of exactly the two fields `employee_id` and `anonymized_mood`,
so the raw mood label never appears at rest. -/
theorem save_depends_only_on_projection (l1 l2 : List JValue)
    (hagree : List.Forall₂ ProjAgree l1 l2) (ioFail : Bool) (f : FileContent) :
    (save_mood_history ioFail l1 f).1 = (save_mood_history ioFail l2 f).1 ∧
    (∀ ps, projectAll l1 = some ps →
        ∀ p ∈ ps, ∃ v w, p = .obj [("employee_id", v), ("anonymized_mood", w)]) := by
  constructor
  · unfold save_mood_history
    rw [projectAll_congr hagree]
  · intro ps hps
    exact projectAll_shape hps

/-- Witness for claim C7: two one-record logs with different raw moods and
an extra field, agreeing on the two persisted fields. -/
theorem save_depends_only_on_projection_witness :
    (save_mood_history false
        [JValue.obj [("employee_id", .str "E1"), ("mood", .str "Sad"),
                     ("anonymized_mood", .str "h1")]] .absent).1 =
      (save_mood_history false
        [JValue.obj [("employee_id", .str "E1"), ("mood", .str "Happy"),
                     ("anonymized_mood", .str "h1"), ("extra", .num 1)]] .absent).1 :=
  (save_depends_only_on_projection
    [JValue.obj [("employee_id", .str "E1"), ("mood", .str "Sad"),
                 ("anonymized_mood", .str "h1")]]
    [JValue.obj [("employee_id", .str "E1"), ("mood", .str "Happy"),
                 ("anonymized_mood", .str "h1"), ("extra", .num 1)]]
    (List.Forall₂.cons ⟨rfl, rfl⟩ List.Forall₂.nil) false .absent).1

/-- Claim C8: running the main loop only appends records: the final log is
the initial log followed by one record per detected mood, each created
with its `anonymized_mood` field equal to `anonymize_data` of its `mood`
field, and the earlier records reappear unchanged (no operation in the
loop — save, stress check, recommendation — modifies an existing record,
as each merely reads the log). -/
theorem mainloop_append_only (sha256hex : String → String) (employee_id : String)
    (moods : List String) (st : List JValue × FileContent) :
    (runMain sha256hex employee_id moods st).1 =
      st.1 ++ moods.map (mood_entry sha256hex employee_id) ∧
    ∀ mood, (mood_entry sha256hex employee_id mood).getField "mood" =
        some (.str mood) ∧
      (mood_entry sha256hex employee_id mood).getField "anonymized_mood" =
        some (.str (anonymize_data sha256hex mood)) := by
  constructor
  · induction moods generalizing st with
    | nil => simp [runMain]
    | cons m ms ih =>
      have hcons : runMain sha256hex employee_id (m :: ms) st =
          runMain sha256hex employee_id ms
            (mainStep sha256hex employee_id false m st).1 := rfl
      rw [hcons, ih, mainStep_log]
      simp
  · intro mood
    exact ⟨rfl, rfl⟩

/-- Claim C10 counterexample: `load_mood_history` performs no filtering,
so records restored from a (syntactically valid) stored file can carry a
`"mood"` field; a file holding three `{"mood": "Sad"}` objects loads
as-is, the stress check on the restored history raises the alert, and the
mood aggregation input is non-empty. -/
theorem stored_moods_reach_monitor_cex :
    (load_mood_history (.wellFormed (.arr
        [.obj [("mood", .str "Sad")], .obj [("mood", .str "Sad")],
         .obj [("mood", .str "Sad")]]))).1 =
      .arr [.obj [("mood", .str "Sad")], .obj [("mood", .str "Sad")],
            .obj [("mood", .str "Sad")]] ∧
    monitor_stress
        [.obj [("mood", .str "Sad")], .obj [("mood", .str "Sad")],
         .obj [("mood", .str "Sad")]] = [Diag.alert] ∧
    plotMoods
        [.obj [("mood", .str "Sad")], .obj [("mood", .str "Sad")],
         .obj [("mood", .str "Sad")]] =
      [.str "Sad", .str "Sad", .str "Sad"] := by
  exact ⟨rfl, rfl, rfl⟩

/-- Claim C10 as amended: records restored from a file that
`save_mood_history` itself produced carry only the fields `employee_id`
and `anonymized_mood` and never a `mood` field; consequently a history
consisting solely of such records never raises a stress alert and its
mood aggregation is empty. -/
theorem load_after_save_has_no_mood (log ps : List JValue) (f : FileContent)
    (hp : projectAll log = some ps) :
    (load_mood_history (save_mood_history false log f).1).1 = .arr ps ∧
    (∀ p ∈ ps, p.getField "mood" = none) ∧
    monitor_stress ps = [] ∧
    plotMoods ps = [] := by
  have hnm := projectAll_no_mood hp
  refine ⟨?_, hnm, ?_, ?_⟩
  · simp [save_mood_history, hp, load_mood_history]
  · have hnil : (pySliceLast 5 ps).filterMap (fun e => e.getField "mood") = [] :=
      filterMap_mood_nil (fun p hpm => hnm p (pySliceLast_subset 5 ps hpm))
    simp [monitor_stress, hnil]
  · exact filterMap_mood_nil hnm

/-- Witness for the amended claim C10 at a concrete one-record log. -/
theorem load_after_save_has_no_mood_witness :
    monitor_stress
        [JValue.obj [("employee_id", .str "E1"), ("anonymized_mood", .str "h")]] =
      [] :=
  (load_after_save_has_no_mood
    [JValue.obj [("employee_id", .str "E1"), ("mood", .str "Sad"),
                 ("anonymized_mood", .str "h")]]
    [JValue.obj [("employee_id", .str "E1"), ("anonymized_mood", .str "h")]]
    .absent rfl).2.2.1
